import Mathlib

/-!
Shallow embedding of blaze/objects/array.py: the concrete Array handle that
wraps a data descriptor, its construction-time capability specialization
(record fields, int/float/complex scalar coercions), its attribute and
operator dispatch, and its query/coercion operations.  External
collaborators (the datashape type system, the data descriptors, the dynd
scalar conversions, the ufunc catalogue and the evaluator) are modelled at
their boundary, exactly as array.py consumes them.
-/

namespace Blaze

/-- Symbolic dshape as consumed by array.py: a chain of fixed dimension
extents applied to a measure, where a measure is one of the scalar kinds
the file inspects (int32/int64, float32/float64, complex_float32/64), a
record of named fields, or an opaque other measure. -/
inductive Ty : Type where
  | int32 : Ty
  | int64 : Ty
  | float32 : Ty
  | float64 : Ty
  | cfloat32 : Ty
  | cfloat64 : Ty
  | record (fields : List (String × Ty)) : Ty
  | var (name : String) : Ty
  | dim (extent : Nat) (rest : Ty) : Ty

/-- dshape.shape: the list of dimension extents. -/
def Ty.shape : Ty → List Nat
  | Ty.dim n rest => n :: rest.shape
  | _ => []

/-- ms[-1] on a DataShape: the measure at the end of the dimension chain. -/
def Ty.measure : Ty → Ty
  | Ty.dim _ rest => rest.measure
  | t => t

/-- len(dshape): the number of datashape parameters, i.e. the dimensions
plus the measure. -/
def Ty.tylen : Ty → Nat
  | Ty.dim _ rest => 1 + rest.tylen
  | _ => 1

/-- data.dshape in [dshape(int32), dshape(int64)]: true exactly for the
zero-dimensional int32/int64 dshapes. -/
def Ty.isIntScalarShape : Ty → Bool
  | Ty.int32 => true
  | Ty.int64 => true
  | _ => false

/-- data.dshape in [dshape(float32), dshape(float64)]. -/
def Ty.isFloatScalarShape : Ty → Bool
  | Ty.float32 => true
  | Ty.float64 => true
  | _ => false

/-- ms in [complex_float32, complex_float64]. -/
def Ty.isComplexMeasure : Ty → Bool
  | Ty.cfloat32 => true
  | Ty.cfloat64 => true
  | _ => false

/-- Indexing keys passed to getitem: an integer, the empty tuple, or an
opaque other key. -/
inductive Key : Type where
  | int (i : Int) : Key
  | unit : Key
  | other (tag : String) : Key
deriving DecidableEq

/-- The Python error kinds the embedded operations can surface: locally
raised errors of array.py (TypeError, ValueError, AttributeError,
NotImplementedError) and pass-through failures of the external descriptor
(index and field projection misses). -/
inductive PyErr : Type where
  | attributeError (name : String) : PyErr
  | valueError (msg : String) : PyErr
  | typeError (msg : String) : PyErr
  | indexError : PyErr
  | notImplementedError : PyErr
  | descriptorError (name : String) : PyErr
deriving DecidableEq

/-- Boundary model of a data descriptor.  A descriptor carries its dshape,
its capabilities.deferred flag, whether it is a DeferredDescriptor instance
together with its pending expression term and evaluation context (opaque
ids), the field sub-descriptors answering getattr, the element
sub-descriptors answering getitem, whether it exposes a numpy-compatible
view (hasattr __array__, the view itself an opaque id), and the int() and
float() conversions of its dynd array once materialized. -/
inductive Desc : Type where
  | mk (dshape : Ty) (deferredCap : Bool) (isDeferredDesc : Bool)
       (exprTerm : Nat) (exprCtx : Nat)
       (attrs : List (String × Desc))
       (items : List (Key × Desc))
       (hasArrayAttr : Bool) (npView : Nat)
       (dyndInt : Int) (dyndFloat : Rat) : Desc

def Desc.dshape : Desc → Ty
  | Desc.mk t _ _ _ _ _ _ _ _ _ _ => t

def Desc.deferredCap : Desc → Bool
  | Desc.mk _ b _ _ _ _ _ _ _ _ _ => b

def Desc.isDeferredDesc : Desc → Bool
  | Desc.mk _ _ b _ _ _ _ _ _ _ _ => b

def Desc.exprTerm : Desc → Nat
  | Desc.mk _ _ _ t _ _ _ _ _ _ _ => t

def Desc.exprCtx : Desc → Nat
  | Desc.mk _ _ _ _ c _ _ _ _ _ _ => c

/-- self._data.getattr(name): the field projection offered by the
descriptor, or a miss when the backend does not know the field. -/
def Desc.attrLookup : Desc → String → Option Desc
  | Desc.mk _ _ _ _ _ attrs _ _ _ _ _, name => attrs.lookup name

/-- self._data.__getitem__(key): the element sub-descriptor, or a miss
when the backend rejects the key. -/
def Desc.itemLookup : Desc → Key → Option Desc
  | Desc.mk _ _ _ _ _ _ items _ _ _ _, k => items.lookup k

def Desc.hasArrayAttr : Desc → Bool
  | Desc.mk _ _ _ _ _ _ _ b _ _ _ => b

def Desc.npView : Desc → Nat
  | Desc.mk _ _ _ _ _ _ _ _ v _ _ => v

def Desc.dyndInt : Desc → Int
  | Desc.mk _ _ _ _ _ _ _ _ _ i _ => i

def Desc.dyndFloat : Desc → Rat
  | Desc.mk _ _ _ _ _ _ _ _ _ _ q => q

/-- The effective class of the Array after construction: models the
self.__class__ rebinding performed in Array.__init__ (a fresh type deriving
from Array carrying the injected properties). -/
inductive Variant : Type where
  | base : Variant
  | record (names : List String) : Variant
  | intScalar : Variant
  | floatScalar : Variant
  | complexSpecial (hasComplexCoerce : Bool) : Variant
deriving DecidableEq

/-- The specialization chain of Array.__init__: first the record property
injection keyed on the measure ms = dshape[-1], then the int/float/complex
chain keyed on the full dshape.  When one of the later branches is taken it
rebinds the class over plain Array, superseding the record step; the two
can never both apply, since a record measure is neither an int/float
dshape nor a complex measure. -/
def specializeV (ds : Ty) : Variant :=
  let ms := ds.measure
  let recordStep : Variant :=
    match ms with
    | Ty.record fields => Variant.record (fields.map (fun p => p.1))
    | _ => Variant.base
  if ds.isIntScalarShape then Variant.intScalar
  else if ds.isFloatScalarShape then Variant.floatScalar
  else if ms.isComplexMeasure then Variant.complexSpecial (ds.tylen == 1)
  else recordStep

/-- The blaze Array object: the wrapped descriptor, the display metadata
set in __init__, the captured pending expression (term and evaluation
context ids) and the effective class after specialization. -/
structure Array : Type where
  _data : Desc
  axes : List String
  labels : List (Option String)
  user : List (String × String)
  expr : Option (Nat × Nat)
  variant : Variant

/-- Array.__init__(data, axes=None, labels=None, user=dict()): axes and
labels default, through the Python or idiom (hence also when passed empty),
to (len(dshape) - 1)-sized neutral sequences; expr is captured from the
descriptor exactly when it is a DeferredDescriptor; the class is rebound
per specializeV. -/
def array_init (data : Desc) (axes : Option (List String))
    (labels : Option (List (Option String)))
    (user : List (String × String)) : Array :=
  let ndim := data.dshape.tylen - 1
  let axesV : List String :=
    match axes with
    | none => List.replicate ndim ""
    | some l => if l.isEmpty then List.replicate ndim "" else l
  let labelsV : List (Option String) :=
    match labels with
    | none => List.replicate ndim none
    | some l => if l.isEmpty then List.replicate ndim none else l
  let exprV : Option (Nat × Nat) :=
    if data.isDeferredDesc then some (data.exprTerm, data.exprCtx) else none
  Array.mk data axesV labelsV user exprV (specializeV data.dshape)

/-- property dshape: self._data.dshape. -/
def Array.dshape (a : Array) : Ty := a._data.dshape

/-- property deferred: self._data.capabilities.deferred. -/
def Array.deferred (a : Array) : Bool := a._data.deferredCap

/-- Array.__len__: the first extent of dshape.shape, and 1 when the shape
is zero-dimensional. -/
def Array.__len__ (a : Array) : Nat :=
  match a.dshape.shape with
  | [] => 1
  | n :: _ => n

/-- Array.__getitem__: Array(self._data.__getitem__(key)); a key the
descriptor rejects is a pass-through descriptor error. -/
def Array.__getitem__ (a : Array) (k : Key) : Except PyErr Array :=
  match a._data.itemLookup k with
  | some d => Except.ok (array_init d none none [])
  | none => Except.error PyErr.indexError

/-- The message of the ValueError raised by Array.__nonzero__. -/
def ambiguousMsg : String :=
  "The truth value of an array with more than one element is ambiguous. Use a.any() or a.all()"

/-- Array.__nonzero__: defined when len(self) == 1 and len(shape) <= 1, in
which case the single element is extracted (self[0] in one dimension,
self[()] in zero dimensions) and its truth value returned; the truth
protocol bool(item) on the extracted element handle bottoms out in the
external descriptor data and is delegated to boolOf. -/
def Array.__nonzero__ (a : Array) (boolOf : Array → Bool) : Except PyErr Bool :=
  let shape := a.dshape.shape
  if a.__len__ = 1 ∧ shape.length ≤ 1 then
    match (if shape.length = 1 then a.__getitem__ (Key.int 0)
           else a.__getitem__ Key.unit) with
    | Except.ok item => Except.ok (boolOf item)
    | Except.error e => Except.error e
  else Except.error (PyErr.valueError ambiguousMsg)

/-- The injected __int__ method body: e = compute.eval.eval(self); return
int(e._data.dynd_arr()).  The external evaluator is threaded in
state-passing style so that the number of evaluator invocations is visible
in the state. -/
def Array.__int__ {σ : Type} (ev : σ → Array → σ × Array) (s : σ)
    (a : Array) : σ × Int :=
  let r := ev s a
  (r.1, r.2._data.dyndInt)

/-- The injected __float__ method body: e = compute.eval.eval(self); return
float(e._data.dynd_arr()). -/
def Array.__float__ {σ : Type} (ev : σ → Array → σ × Array) (s : σ)
    (a : Array) : σ × Rat :=
  let r := ev s a
  (r.1, r.2._data.dyndFloat)

/-- An evaluator wrapper that counts invocations. -/
def countingEval (ev0 : Array → Array) : Nat → Array → Nat × Array :=
  fun n a => (n + 1, ev0 a)

/-- Array.__array__: np.array(self._data) (the numpy view offered by the
descriptor) when hasattr(self._data, __array__); NotImplementedError
otherwise. -/
def Array.__array__ (a : Array) : Except PyErr Nat :=
  if a._data.hasArrayAttr then Except.ok a._data.npView
  else Except.error PyErr.notImplementedError

/-- The ufunc-name to special-method-name table passed to
_inject_special_binary at module load. -/
def binary_special_names : List (String × String) :=
  [("add", "add"), ("subtract", "sub"), ("multiply", "mul"),
   ("true_divide", "truediv"), ("mod", "mod"), ("floor_divide", "floordiv"),
   ("equal", "eq"), ("not_equal", "ne"), ("greater", "gt"),
   ("greater_equal", "ge"), ("less_equal", "le"), ("less", "lt"),
   ("divide", "div"), ("bitwise_and", "and"), ("bitwise_or", "or"),
   ("bitwise_xor", "xor"), ("power", "pow")]

/-- The table passed to _inject_special at module load. -/
def unary_special_names : List (String × String) :=
  [("bitwise_not", "invert"), ("negative", "neg")]

/-- The operator dunder names set on the Array class at module load. -/
def operatorAttrNames : List String :=
  binary_special_names.map (fun p => "__" ++ p.2 ++ "__") ++
  binary_special_names.map (fun p => "__r" ++ p.2 ++ "__") ++
  unary_special_names.map (fun p => "__" ++ p.2 ++ "__")

/-- The attribute surface of a plain Array object: the instance attributes
set in __init__, the properties and methods of the Array class body, and
the operator dunders injected at module load.  (The universal
object-protocol attributes of Python are outside the model.) -/
def Array.baseAttrNames : List String :=
  ["_data", "axes", "labels", "user", "expr", "dshape", "deferred", "view",
   "__array__", "__iter__", "__getitem__", "__setitem__", "__len__",
   "__nonzero__", "__str__", "__repr__"] ++ operatorAttrNames

/-- The attribute names contributed by the specialized class variant. -/
def variantAttrNames : Variant → List String
  | Variant.base => []
  | Variant.record names => names
  | Variant.intScalar => ["__int__"]
  | Variant.floatScalar => ["__float__"]
  | Variant.complexSpecial hasC =>
      (if hasC then ["__complex__"] else []) ++ ["real", "imag"]

/-- The value produced by a successful attribute lookup on an Array. -/
inductive AttrVal : Type where
  | descV (d : Desc) : AttrVal
  | strListV (l : List String) : AttrVal
  | lblListV (l : List (Option String)) : AttrVal
  | userV (u : List (String × String)) : AttrVal
  | exprV (e : Option (Nat × Nat)) : AttrVal
  | tyV (t : Ty) : AttrVal
  | boolV (b : Bool) : AttrVal
  | arrV (a : Array) : AttrVal
  | methodV (name : String) : AttrVal

/-- The values of the plain instance attributes and class properties; the
remaining base names are bound methods, modelled opaquely. -/
def Array.namedAttr (a : Array) (name : String) : AttrVal :=
  if name = "_data" then AttrVal.descV a._data
  else if name = "axes" then AttrVal.strListV a.axes
  else if name = "labels" then AttrVal.lblListV a.labels
  else if name = "user" then AttrVal.userV a.user
  else if name = "expr" then AttrVal.exprV a.expr
  else if name = "dshape" then AttrVal.tyV a._data.dshape
  else if name = "deferred" then AttrVal.boolV a._data.deferredCap
  else AttrVal.methodV name

/-- Python attribute lookup on an Array.  The specialized class sits first
in the method resolution order, so its injected properties win; a record
field property is _named_property(name), i.e. Array(self._data.getattr(name)).
A name with no attribute raises AttributeError. -/
def Array.getattrPy (a : Array) (name : String) : Except PyErr AttrVal :=
  if name ∈ variantAttrNames a.variant then
    match a.variant with
    | Variant.record _ =>
      match a._data.attrLookup name with
      | some sub => Except.ok (AttrVal.arrV (array_init sub none none []))
      | none => Except.error (PyErr.descriptorError name)
    | _ => Except.ok (AttrVal.methodV name)
  else if name ∈ Array.baseAttrNames then Except.ok (a.namedAttr name)
  else Except.error (PyErr.attributeError name)

/-- The deferred attribute of a value obtained from an attribute lookup:
only an Array has one (its deferred property); every other value raises
AttributeError when asked for it. -/
def AttrVal.deferredAttr : AttrVal → Except PyErr Bool
  | AttrVal.arrV sub => Except.ok sub._data.deferredCap
  | _ => Except.error (PyErr.attributeError "deferred")

/-- compute.expr.dump(term, ipython): external rendering of an expression
term, modelled as the identity on the term id. -/
def dump (term : Nat) : Nat := term

/-- Array.view:
if not self.capabilities.deferred raise ValueError;
term, context = self.expr; return dump(term, ipython).
The first step is an attribute lookup of capabilities on self, faithfully
routed through getattrPy. -/
def Array.view (a : Array) : Except PyErr Nat :=
  match a.getattrPy "capabilities" with
  | Except.error e => Except.error e
  | Except.ok caps =>
    match caps.deferredAttr with
    | Except.error e => Except.error e
    | Except.ok b =>
      if b = false then
        Except.error (PyErr.valueError "Cannot call view on a concrete array")
      else
        match a.expr with
        | some (term, _ctx) => Except.ok (dump term)
        | none => Except.error (PyErr.typeError "cannot unpack non-sequence")

/-- def binding(f): binder(self, *args) = f(self, *args). -/
def binding (f : Array → Array → Array) (self other : Array) : Array :=
  f self other

/-- def __rufunc__(f): __rop__(self, other) = f(other, self). -/
def __rufunc__ (f : Array → Array → Array) (self other : Array) : Array :=
  f other self

/-- _inject_special_binary sets, for each table entry, the plain dunder to
binding(ufunc) and the reflected dunder to binding(__rufunc__(ufunc)); the
pair of generated methods for one ufunc is returned. -/
def _inject_special_binary (ufunc : Array → Array → Array) :
    (Array → Array → Array) × (Array → Array → Array) :=
  (binding ufunc, binding (__rufunc__ ufunc))

/-- Concrete non-deferred zero-dimensional int32 descriptor exposing a
numpy view; its materialized dynd scalar converts to 42. -/
def d_int32 : Desc := Desc.mk Ty.int32 false false 0 0 [] [] true 7 42 0

/-- Concrete non-deferred zero-dimensional float64 descriptor; its
materialized dynd scalar converts to 3. -/
def d_f64 : Desc := Desc.mk Ty.float64 false false 0 0 [] [] false 0 0 3

/-- Concrete deferred int32 descriptor with pending expression term 5 and
evaluation context 9. -/
def d_def : Desc := Desc.mk Ty.int32 true true 5 9 [] [] false 0 0 0

/-- Element descriptor whose dynd scalar converts to 1. -/
def d_elem : Desc := Desc.mk Ty.int32 false false 0 0 [] [] false 0 1 0

/-- One-dimensional length-1 int32 descriptor answering index 0. -/
def d_vec1 : Desc :=
  Desc.mk (Ty.dim 1 Ty.int32) false false 0 0 [] [(Key.int 0, d_elem)] false 0 0 0

/-- One-dimensional length-5 int32 descriptor. -/
def d_vec5 : Desc := Desc.mk (Ty.dim 5 Ty.int32) false false 0 0 [] [] false 0 0 0

/-- Field sub-descriptor of type int32. -/
def d_x : Desc := Desc.mk Ty.int32 false false 0 0 [] [] false 0 0 0

/-- Field sub-descriptor of type float64. -/
def d_y : Desc := Desc.mk Ty.float64 false false 0 0 [] [] false 0 0 0

/-- Record descriptor with fields x: int32 and y: float64, projecting each
field to the matching sub-descriptor. -/
def d_rec : Desc :=
  Desc.mk (Ty.record [("x", Ty.int32), ("y", Ty.float64)]) false false 0 0
    [("x", d_x), ("y", d_y)] [] false 0 0 0

theorem tylen_shape : ∀ t : Ty, t.tylen = t.shape.length + 1
  | Ty.int32 => rfl
  | Ty.int64 => rfl
  | Ty.float32 => rfl
  | Ty.float64 => rfl
  | Ty.cfloat32 => rfl
  | Ty.cfloat64 => rfl
  | Ty.record _ => rfl
  | Ty.var _ => rfl
  | Ty.dim n rest => by
      simp [Ty.tylen, Ty.shape, tylen_shape rest]
      omega

theorem isInt_cases (t : Ty) (h : t.isIntScalarShape = true) :
    t = Ty.int32 ∨ t = Ty.int64 := by
  cases t <;> simp_all [Ty.isIntScalarShape]

theorem isFloat_cases (t : Ty) (h : t.isFloatScalarShape = true) :
    t = Ty.float32 ∨ t = Ty.float64 := by
  cases t <;> simp_all [Ty.isFloatScalarShape]

/-- C3: the dunder pair generated by _inject_special_binary for a binary
transformation keeps natural operand order: the plain form applies
f(self, other) and the reflected form applies f(other, self), so the
reflected call b.__radd__(a) also computes f(a, b) — operand order is
preserved regardless of which side triggered dispatch. -/
theorem operator_dispatch_order (f : Array → Array → Array) (a b : Array) :
    (_inject_special_binary f).1 a b = f a b ∧
    (_inject_special_binary f).2 b a = f a b :=
  ⟨rfl, rfl⟩

/-- C5: __len__ returns the first extent of the dshape shape of the
descriptor, and 1 for a zero-dimensional Handle; it is a total function of
the dshape, so it raises nothing. -/
theorem len_first_extent (a : Array) :
    (∀ n rest, a._data.dshape.shape = n :: rest → a.__len__ = n) ∧
    (a._data.dshape.shape = [] → a.__len__ = 1) := by
  constructor
  · intro n rest h
    simp [Array.__len__, Array.dshape, h]
  · intro h
    simp [Array.__len__, Array.dshape, h]

/-- C5 witness: a length-5 one-dimensional handle has length 5, and a
zero-dimensional handle has length 1. -/
theorem len_first_extent_instance :
    d_vec5.dshape.shape = [5] ∧
    (array_init d_vec5 none none []).__len__ = 5 ∧
    d_int32.dshape.shape = [] ∧
    (array_init d_int32 none none []).__len__ = 1 :=
  ⟨rfl, (len_first_extent (array_init d_vec5 none none [])).1 5 [] rfl, rfl,
    (len_first_extent (array_init d_int32 none none [])).2 rfl⟩

/-- C9: __array__ returns the numpy view of the descriptor exactly when the
descriptor exposes one (hasattr __array__), and raises NotImplementedError
when it does not. -/
theorem array_export_spec (a : Array) :
    (a._data.hasArrayAttr = true → a.__array__ = Except.ok a._data.npView) ∧
    (a._data.hasArrayAttr = false →
      a.__array__ = Except.error PyErr.notImplementedError) := by
  constructor <;> intro h <;> simp [Array.__array__, h]

/-- C9 witness: a descriptor with a numpy view exports it, one without
raises NotImplementedError. -/
theorem array_export_instance :
    (array_init d_int32 none none [])._data.hasArrayAttr = true ∧
    (array_init d_int32 none none []).__array__ = Except.ok 7 ∧
    (array_init d_f64 none none [])._data.hasArrayAttr = false ∧
    (array_init d_f64 none none []).__array__
      = Except.error PyErr.notImplementedError :=
  ⟨rfl, (array_export_spec (array_init d_int32 none none [])).1 rfl, rfl,
    (array_export_spec (array_init d_f64 none none [])).2 rfl⟩

/-- C10: passing an empty (falsy) axes or labels sequence is
indistinguishable from omitting the argument: the or-defaulting in
__init__ substitutes the dimensionality-sized default either way, so no
caller can set an empty sequence distinct from the default. -/
theorem falsy_args_default (d : Desc) (u : List (String × String)) :
    (∀ labels, array_init d (some []) labels u = array_init d none labels u) ∧
    (∀ axes, array_init d axes (some []) u = array_init d axes none u) :=
  ⟨fun _ => rfl, fun _ => rfl⟩

/-- C2: the deferred property does follow the descriptor capability, but
materializedView (Array.view) begins by reading self.capabilities, an
attribute no Array object has (the adjacent deferred property reads
self._data.capabilities), so view raises AttributeError on every Array: on
a non-deferred Handle instead of the NotDeferredError ValueError, and on a
deferred Handle instead of returning the captured expression view. -/
theorem view_attribute_error :
    (array_init d_def none none []).deferred = true ∧
    (array_init d_int32 none none []).deferred = false ∧
    (array_init d_def none none []).expr = some (5, 9) ∧
    (array_init d_def none none []).view
      = Except.error (PyErr.attributeError "capabilities") ∧
    (array_init d_int32 none none []).view
      = Except.error (PyErr.attributeError "capabilities") :=
  ⟨rfl, rfl, rfl, rfl, rfl⟩

/-- C1: a Handle built from a 32/64-bit integer (resp. float) scalar dshape
descriptor is specialized with the matching coercion method; such a dshape
is zero-dimensional, so the length of the Handle is always exactly 1 and
the length-not-1 failure clause can never fire; the coercion performs
exactly one evaluator call (the instrumented state rises by exactly 1) and
returns the int (resp. float) conversion of the dynd scalar of the single
materialized result. -/
theorem scalar_coercion_spec (d : Desc) :
    (d.dshape.isIntScalarShape = true →
      (array_init d none none []).variant = Variant.intScalar ∧
      (array_init d none none []).__len__ = 1 ∧
      ∀ (ev0 : Array → Array) (s : Nat),
        Array.__int__ (countingEval ev0) s (array_init d none none [])
          = (s + 1, (ev0 (array_init d none none []))._data.dyndInt)) ∧
    (d.dshape.isFloatScalarShape = true →
      (array_init d none none []).variant = Variant.floatScalar ∧
      (array_init d none none []).__len__ = 1 ∧
      ∀ (ev0 : Array → Array) (s : Nat),
        Array.__float__ (countingEval ev0) s (array_init d none none [])
          = (s + 1, (ev0 (array_init d none none []))._data.dyndFloat)) := by
  constructor
  · intro h
    refine ⟨?_, ?_, fun ev0 s => rfl⟩
    · simp [array_init, specializeV, h]
    · rcases isInt_cases _ h with hc | hc <;>
        simp [Array.__len__, Array.dshape, array_init, hc, Ty.shape]
  · intro h
    have hnint : d.dshape.isIntScalarShape = false := by
      rcases isFloat_cases _ h with hc | hc <;> rw [hc] <;> rfl
    refine ⟨?_, ?_, fun ev0 s => rfl⟩
    · simp [array_init, specializeV, h, hnint]
    · rcases isFloat_cases _ h with hc | hc <;>
        simp [Array.__len__, Array.dshape, array_init, hc, Ty.shape]

/-- C1 witness: an int32 scalar handle converts through one evaluator call
to the integer 42, and a float64 scalar handle to the rational 3. -/
theorem scalar_coercion_instance :
    (d_int32.dshape.isIntScalarShape = true ∧
      Array.__int__ (countingEval id) 0 (array_init d_int32 none none [])
        = (1, 42)) ∧
    (d_f64.dshape.isFloatScalarShape = true ∧
      Array.__float__ (countingEval id) 0 (array_init d_f64 none none [])
        = (1, 3)) := by
  refine ⟨⟨rfl, ?_⟩, ⟨rfl, ?_⟩⟩
  · exact ((scalar_coercion_spec d_int32).1 rfl).2.2 id 0
  · exact ((scalar_coercion_spec d_f64).2 rfl).2.2 id 0

/-- C4: __nonzero__ succeeds exactly on handles with length 1 and
dimensionality at most 1, extracting the single element (self[0] in one
dimension, self[()] in zero dimensions) and returning its truth value (the
truth protocol on the extracted element handle is delegated to boolOf);
every other shape raises the ambiguous-truth-value ValueError. -/
theorem truth_value_spec (boolOf : Array → Bool) (a : Array) :
    (¬(a.__len__ = 1 ∧ a._data.dshape.shape.length ≤ 1) →
      a.__nonzero__ boolOf = Except.error (PyErr.valueError ambiguousMsg)) ∧
    (∀ item, a.__len__ = 1 → a._data.dshape.shape.length = 1 →
      a._data.itemLookup (Key.int 0) = some item →
      a.__nonzero__ boolOf = Except.ok (boolOf (array_init item none none []))) ∧
    (∀ item, a._data.dshape.shape = [] →
      a._data.itemLookup Key.unit = some item →
      a.__nonzero__ boolOf = Except.ok (boolOf (array_init item none none []))) := by
  refine ⟨?_, ?_, ?_⟩
  · intro h
    simp only [Array.__nonzero__, Array.dshape]
    rw [if_neg h]
  · intro item hlen hdim hlook
    simp only [Array.__nonzero__, Array.dshape]
    rw [if_pos ⟨hlen, by omega⟩, if_pos hdim]
    simp [Array.__getitem__, hlook]
  · intro item hsh hlook
    have hlen : a.__len__ = 1 := by
      simp [Array.__len__, Array.dshape, hsh]
    simp only [Array.__nonzero__, Array.dshape]
    rw [if_pos ⟨hlen, by rw [hsh]; simp⟩, if_neg (by rw [hsh]; simp)]
    simp [Array.__getitem__, hlook]

/-- C4 witness: a length-5 handle raises the ambiguity error, while a
one-dimensional length-1 handle returns the truth value of its single
element. -/
theorem truth_value_instance :
    (¬((array_init d_vec5 none none []).__len__ = 1 ∧
        (array_init d_vec5 none none [])._data.dshape.shape.length ≤ 1)) ∧
    (array_init d_vec5 none none []).__nonzero__ (fun _ => true)
      = Except.error (PyErr.valueError ambiguousMsg) ∧
    (array_init d_vec1 none none [])._data.itemLookup (Key.int 0) = some d_elem ∧
    (array_init d_vec1 none none []).__nonzero__
        (fun x => decide (x._data.dyndInt ≠ 0))
      = Except.ok true := by
  refine ⟨by decide, ?_, rfl, ?_⟩
  · exact (truth_value_spec (fun _ => true) (array_init d_vec5 none none [])).1
      (by decide)
  · exact ((truth_value_spec (fun x => decide (x._data.dyndInt ≠ 0))
      (array_init d_vec1 none none [])).2.1 d_elem rfl rfl rfl).trans (by rfl)

/-- C6 counterexample: constructing from a one-dimensional descriptor with
an explicit two-element axes sequence stores it unchecked, so
len(axes) == len(labels) == dimensionality fails. -/
theorem labels_invariant_counterexample :
    ¬((array_init d_vec5 (some ["a", "b"]) none []).axes.length
        = (array_init d_vec5 (some ["a", "b"]) none []).labels.length ∧
      (array_init d_vec5 (some ["a", "b"]) none []).labels.length
        = d_vec5.dshape.shape.length) := by
  decide

/-- C6 amended: the invariant len(axes) == len(labels) == dimensionality
holds for every construction in which each provided axes/labels argument is
either omitted or empty (then the dimensionality-sized default is
substituted) or already of length equal to the dimensionality; any other
provided non-empty sequence is stored without validation and breaks the
invariant. -/
theorem labels_invariant_amended (d : Desc) (axes : Option (List String))
    (labels : Option (List (Option String))) (u : List (String × String))
    (hax : ∀ l, axes = some l → l.isEmpty = false →
      l.length = d.dshape.shape.length)
    (hlb : ∀ l, labels = some l → l.isEmpty = false →
      l.length = d.dshape.shape.length) :
    (array_init d axes labels u).axes.length = d.dshape.shape.length ∧
    (array_init d axes labels u).labels.length = d.dshape.shape.length := by
  have hnd : d.dshape.tylen - 1 = d.dshape.shape.length := by
    rw [tylen_shape]
    omega
  constructor
  · simp only [array_init]
    match axes with
    | none => simp [hnd]
    | some l =>
      cases he : l.isEmpty
      · simpa [he] using hax l rfl he
      · simp [he, hnd]
  · simp only [array_init]
    match labels with
    | none => simp [hnd]
    | some l =>
      cases he : l.isEmpty
      · simpa [he] using hlb l rfl he
      · simp [he, hnd]

/-- C6 witness for the amended claim: a one-dimensional descriptor with a
one-element axes sequence and omitted labels satisfies the invariant. -/
theorem labels_invariant_instance :
    (∀ l, (some ["a"] : Option (List String)) = some l → l.isEmpty = false →
      l.length = d_vec5.dshape.shape.length) ∧
    (array_init d_vec5 (some ["a"]) none []).axes.length
      = d_vec5.dshape.shape.length ∧
    (array_init d_vec5 (some ["a"]) none []).labels.length
      = d_vec5.dshape.shape.length := by
  refine ⟨?_, ?_⟩
  · intro l hl _
    cases hl
    rfl
  · exact labels_invariant_amended d_vec5 (some ["a"]) none []
      (by intro l hl _; cases hl; rfl)
      (by intro l hl; simp at hl)

/-- C8: getitem wraps descriptor.index(key) in a fresh Array whose axes and
labels are the defaults for the sub-descriptor dshape — nothing is
inherited from the parent — and the parent is untouched: the result depends
only on the parent descriptor, not on any of its other fields. -/
theorem getitem_wraps_index (a : Array) (k : Key) (d : Desc)
    (h : a._data.itemLookup k = some d) :
    a.__getitem__ k = Except.ok (array_init d none none []) ∧
    (array_init d none none []).axes
      = List.replicate d.dshape.shape.length "" ∧
    (array_init d none none []).labels
      = List.replicate d.dshape.shape.length none ∧
    (∀ axes labels user expr variant,
      (Array.mk a._data axes labels user expr variant).__getitem__ k
        = a.__getitem__ k) := by
  have hnd : d.dshape.tylen - 1 = d.dshape.shape.length := by
    rw [tylen_shape]
    omega
  refine ⟨?_, ?_, ?_, ?_⟩
  · simp [Array.__getitem__, h]
  · simp [array_init, hnd]
  · simp [array_init, hnd]
  · intro axes labels user expr variant
    simp [Array.__getitem__]

/-- C8 witness: indexing the length-1 vector handle at 0 yields a fresh
handle wrapping the element descriptor with default metadata. -/
theorem getitem_instance :
    (array_init d_vec1 none none [])._data.itemLookup (Key.int 0)
      = some d_elem ∧
    (array_init d_vec1 none none []).__getitem__ (Key.int 0)
      = Except.ok (array_init d_elem none none []) ∧
    (array_init d_elem none none []).axes = [] ∧
    (array_init d_elem none none []).labels = [] :=
  ⟨rfl,
    (getitem_wraps_index (array_init d_vec1 none none []) (Key.int 0) d_elem
      rfl).1,
    rfl, rfl⟩

/-- C7: a descriptor whose effective element type (the measure of its
dshape) is a record yields the record-specialized variant exposing one
accessor per field name; each accessor wraps the sub-descriptor the backend
projects for that field in a fresh Handle (so when the descriptor contract
makes that projection carry the declared field type, the dshape of the
resulting Handle is exactly that type); a name outside the fields and the
base attribute surface raises AttributeError. -/
theorem record_field_access (d : Desc) (fields : List (String × Ty))
    (hrec : d.dshape.measure = Ty.record fields) :
    ((array_init d none none []).variant
      = Variant.record (fields.map (fun p => p.1))) ∧
    (∀ name sub, d.attrLookup name = some sub →
      name ∈ fields.map (fun p => p.1) →
      (array_init d none none []).getattrPy name
        = Except.ok (AttrVal.arrV (array_init sub none none [])) ∧
      ∀ ty, sub.dshape = ty → (array_init sub none none []).dshape = ty) ∧
    (∀ name, name ∉ fields.map (fun p => p.1) →
      name ∉ Array.baseAttrNames →
      (array_init d none none []).getattrPy name
        = Except.error (PyErr.attributeError name)) := by
  have hnint : d.dshape.isIntScalarShape = false := by
    cases hb : d.dshape.isIntScalarShape
    · rfl
    · rcases isInt_cases _ hb with hc | hc <;> rw [hc] at hrec <;>
        simp [Ty.measure] at hrec
  have hnfl : d.dshape.isFloatScalarShape = false := by
    cases hb : d.dshape.isFloatScalarShape
    · rfl
    · rcases isFloat_cases _ hb with hc | hc <;> rw [hc] at hrec <;>
        simp [Ty.measure] at hrec
  have hncx : d.dshape.measure.isComplexMeasure = false := by
    rw [hrec]
    rfl
  have hv : (array_init d none none []).variant
      = Variant.record (fields.map (fun p => p.1)) := by
    simp [array_init, specializeV, hnint, hnfl, hncx, hrec,
      Ty.isComplexMeasure]
  refine ⟨hv, ?_, ?_⟩
  · intro name sub hlook hmem
    constructor
    · simp only [Array.getattrPy, hv, variantAttrNames]
      rw [if_pos hmem]
      simp [array_init, hlook]
    · intro ty hty
      simp [Array.dshape, array_init, hty]
  · intro name hn hnb
    simp only [Array.getattrPy, hv, variantAttrNames]
    rw [if_neg hn, if_neg hnb]

/-- C7 witness: the record handle with fields x and y answers h.x with a
fresh handle wrapping the projected int32 sub-descriptor, and raises
AttributeError for the absent field z. -/
theorem record_field_access_instance :
    d_rec.dshape.measure = Ty.record [("x", Ty.int32), ("y", Ty.float64)] ∧
    d_rec.attrLookup "x" = some d_x ∧
    (array_init d_rec none none []).getattrPy "x"
      = Except.ok (AttrVal.arrV (array_init d_x none none [])) ∧
    (array_init d_x none none []).dshape = Ty.int32 ∧
    "z" ∉ ([("x", Ty.int32), ("y", Ty.float64)].map
      (fun p : String × Ty => p.1)) ∧
    "z" ∉ Array.baseAttrNames ∧
    (array_init d_rec none none []).getattrPy "z"
      = Except.error (PyErr.attributeError "z") := by
  have hmain := record_field_access d_rec [("x", Ty.int32), ("y", Ty.float64)]
    rfl
  refine ⟨rfl, rfl, ?_, ?_, by decide, by decide, ?_⟩
  · exact (hmain.2.1 "x" d_x rfl (by decide)).1
  · exact (hmain.2.1 "x" d_x rfl (by decide)).2 Ty.int32 rfl
  · exact hmain.2.2 "z" (by decide) (by decide)

end Blaze
